import Mathlib

/-
Verification of the indoor-highlights batch pipeline.

The definitions below are a shallow embedding of the upload state store,
quota guard, resumable uploader and batch orchestrator found in
src/src/batch_process.py and src/src/youtube/uploader.py, plus the
highlight subclip computation of src/src/main.py.  Filesystem and network
effects are made explicit: the persisted JSON file becomes an in-memory
mirror plus a disk snapshot, the remote API becomes an oracle assigning an
outcome to each network call, and "today" and timestamps are passed as
explicit parameters.
-/

namespace IndoorVid

/-! ## Upload state data model (src/src/batch_process.py) -/

/-- One entry of the persisted state: the value stored under a
(date, video kind) key, from record_upload (lines 78-86). -/
structure UploadRecord where
  youtube_id : String
  uploaded_at : String
  deriving Repr, DecidableEq

/-- The `_meta` object of the persisted state file. -/
structure StateMeta where
  uploads_today : Nat
  last_upload_date : Option String
  deriving Repr, DecidableEq

/-- The whole persisted state: `_meta` plus a dict of dicts
date -> kind -> record, modelled as ordered association lists
(python dict insertion-order semantics). -/
structure UploadState where
  meta : StateMeta
  entries : List (String × List (String × UploadRecord))
  deriving Repr, DecidableEq

/-- Association-list lookup, modelling python `d[k]` / `k in d`. -/
def assocFind {α : Type} (key : String) : List (String × α) → Option α
  | [] => none
  | (k, v) :: rest => if k = key then some v else assocFind key rest

/-- Association-list update, modelling python `d[k] = v`: replaces the
value if the key is present, otherwise appends at the end. -/
def assocSet {α : Type} (key : String) (v : α) : List (String × α) → List (String × α)
  | [] => [(key, v)]
  | (k, w) :: rest => if k = key then (key, v) :: rest else (k, w) :: assocSet key v rest

/-- Nested lookup of entries[date][kind]. -/
def entriesLookup (date kind : String)
    (es : List (String × List (String × UploadRecord))) : Option UploadRecord :=
  match assocFind date es with
  | none => none
  | some inner => assocFind kind inner

/-- The body of record_upload on the entries dict:
`if date not in state: state[date] = dict()` then
`state[date][video_type] = rec` (lines 80-85). -/
def record_entries (date kind : String) (r : UploadRecord)
    (es : List (String × List (String × UploadRecord))) :
    List (String × List (String × UploadRecord)) :=
  let inner := (assocFind date es).getD []
  assocSet date (assocSet kind r inner) es

/-- The state file plus its im-memory copy: `mem` is the dict held by the
running process, `disk` the last persisted snapshot (none when the file
does not exist yet). -/
structure StateStore where
  mem : UploadState
  disk : Option UploadState
  deriving Repr, DecidableEq

/-- load_upload_state (lines 31-36): read the file when present, else a
fresh state with zero counter and null last date. -/
def load_upload_state (disk : Option UploadState) : UploadState :=
  match disk with
  | some s => s
  | none => UploadState.mk (StateMeta.mk 0 none) []

/-- save_upload_state (lines 67-70): serialize the full in-memory state,
overwriting the file. -/
def save_upload_state (st : StateStore) : StateStore :=
  StateStore.mk st.mem (some st.mem)

/-- get_uploads_today (lines 39-48): the stored counter is only valid when
last_upload_date equals today, otherwise the day rolled over and the
count is 0. -/
def get_uploads_today (state : UploadState) (today : String) : Nat :=
  if state.meta.last_upload_date ≠ some today then 0
  else state.meta.uploads_today

/-- increment_upload_count (lines 51-64): reset to 1 on a new day, else
increment, then persist. -/
def increment_upload_count (st : StateStore) (today : String) : StateStore :=
  let m := st.mem.meta
  let m2 := if m.last_upload_date ≠ some today
            then StateMeta.mk 1 (some today)
            else StateMeta.mk (m.uploads_today + 1) m.last_upload_date
  save_upload_state (StateStore.mk (UploadState.mk m2 st.mem.entries) st.disk)

/-- is_video_uploaded (lines 73-75): `date in state and video_type in state[date]`. -/
def is_video_uploaded (state : UploadState) (date video_type : String) : Bool :=
  (entriesLookup date video_type state.entries).isSome

/-- record_upload (lines 78-86): write the entry, then persist the full state. -/
def record_upload (st : StateStore) (date video_type video_id now : String) : StateStore :=
  save_upload_state
    (StateStore.mk
      (UploadState.mk st.mem.meta (record_entries date video_type (UploadRecord.mk video_id now) st.mem.entries))
      st.disk)

/-! ## Lemmas about the association lists -/

theorem assocFind_assocSet_self {α : Type} (key : String) (v : α)
    (l : List (String × α)) : assocFind key (assocSet key v l) = some v := by
  induction l with
  | nil => simp [assocSet, assocFind]
  | cons p rest ih =>
      obtain ⟨k, w⟩ := p
      by_cases hk : k = key
      · simp [assocSet, assocFind, hk]
      · simp [assocSet, assocFind, hk, ih]

theorem entriesLookup_record_entries (date kind : String) (r : UploadRecord)
    (es : List (String × List (String × UploadRecord))) :
    entriesLookup date kind (record_entries date kind r es) = some r := by
  simp [record_entries, entriesLookup, assocFind_assocSet_self]

/-! ## Claims C5, C6, C7 -/

/-- Claim C5 (confirmed): get_uploads_today returns 0 whenever
meta.last_upload_date differs from today, and returns the stored
uploads_today counter when it equals today. -/
theorem C5_get_uploads_today_rollover (s : UploadState) (today : String) :
    (s.meta.last_upload_date ≠ some today → get_uploads_today s today = 0) ∧
    (s.meta.last_upload_date = some today →
      get_uploads_today s today = s.meta.uploads_today) := by
  constructor
  · intro h
    simp [get_uploads_today, h]
  · intro h
    simp [get_uploads_today, h]

/-- Witness for C5: last date yesterday, counter 5, result today is 0. -/
theorem C5_get_uploads_today_rollover_witness :
    (UploadState.mk (StateMeta.mk 5 (some "2025-01-13")) []).meta.last_upload_date ≠
        some "2025-01-14" ∧
    get_uploads_today (UploadState.mk (StateMeta.mk 5 (some "2025-01-13")) []) "2025-01-14" = 0 :=
  ⟨by decide,
   (C5_get_uploads_today_rollover (UploadState.mk (StateMeta.mk 5 (some "2025-01-13")) [])
     "2025-01-14").1 (by decide)⟩

/-- Claim C6 (confirmed): increment_upload_count resets the counter to 1 and
stamps today when the stored date differs from today, otherwise adds 1
leaving the date unchanged; in both cases the full state is persisted
immediately (the disk snapshot equals the new in-memory state). -/
theorem C6_increment_upload_count_spec (st : StateStore) (today : String) :
    (st.mem.meta.last_upload_date ≠ some today →
      (increment_upload_count st today).mem.meta.uploads_today = 1 ∧
      (increment_upload_count st today).mem.meta.last_upload_date = some today) ∧
    (st.mem.meta.last_upload_date = some today →
      (increment_upload_count st today).mem.meta.uploads_today =
        st.mem.meta.uploads_today + 1 ∧
      (increment_upload_count st today).mem.meta.last_upload_date =
        st.mem.meta.last_upload_date) ∧
    (increment_upload_count st today).disk = some (increment_upload_count st today).mem := by
  by_cases h : st.mem.meta.last_upload_date = some today
  · refine ⟨fun hne => absurd h hne, fun _ => ?_, ?_⟩
    · simp [increment_upload_count, save_upload_state, h]
    · simp [increment_upload_count, save_upload_state]
  · refine ⟨fun _ => ?_, fun heq => absurd heq h, ?_⟩
    · simp [increment_upload_count, save_upload_state, h]
    · simp [increment_upload_count, save_upload_state]

/-- Witness for C6: a concrete store stamped yesterday gets counter 1 and
todays date. -/
theorem C6_increment_upload_count_spec_witness :
    (increment_upload_count
        (StateStore.mk (UploadState.mk (StateMeta.mk 5 (some "2025-01-13")) []) none)
        "2025-01-14").mem.meta.uploads_today = 1 ∧
    (increment_upload_count
        (StateStore.mk (UploadState.mk (StateMeta.mk 5 (some "2025-01-13")) []) none)
        "2025-01-14").mem.meta.last_upload_date = some "2025-01-14" :=
  (C6_increment_upload_count_spec
      (StateStore.mk (UploadState.mk (StateMeta.mk 5 (some "2025-01-13")) []) none)
      "2025-01-14").1 (by decide)

/-- Claim C7 (confirmed): recording twice under the same (date, kind) with
distinct video ids leaves the latest id (last-write-wins), and
is_video_uploaded is true after either single record call. -/
theorem C7_record_last_write_wins (st : StateStore) (date kind v1 v2 n1 n2 : String)
    (hne : v1 ≠ v2) :
    entriesLookup date kind
        (record_upload (record_upload st date kind v1 n1) date kind v2 n2).mem.entries =
      some (UploadRecord.mk v2 n2) ∧
    is_video_uploaded (record_upload st date kind v1 n1).mem date kind = true ∧
    is_video_uploaded
        (record_upload (record_upload st date kind v1 n1) date kind v2 n2).mem date kind
      = true := by
  refine ⟨?_, ?_, ?_⟩
  · simp [record_upload, save_upload_state, entriesLookup_record_entries]
  · simp [record_upload, save_upload_state, is_video_uploaded, entriesLookup_record_entries]
  · simp [record_upload, save_upload_state, is_video_uploaded, entriesLookup_record_entries]

/-- Witness for C7 at concrete distinct ids. -/
theorem C7_record_last_write_wins_witness :
    entriesLookup "2025-01-13" "full_video"
        (record_upload
          (record_upload (StateStore.mk (UploadState.mk (StateMeta.mk 0 none) []) none)
            "2025-01-13" "full_video" "vidA" "t1")
          "2025-01-13" "full_video" "vidB" "t2").mem.entries =
      some (UploadRecord.mk "vidB" "t2") ∧
    is_video_uploaded
        (record_upload (StateStore.mk (UploadState.mk (StateMeta.mk 0 none) []) none)
          "2025-01-13" "full_video" "vidA" "t1").mem "2025-01-13" "full_video" = true ∧
    is_video_uploaded
        (record_upload
          (record_upload (StateStore.mk (UploadState.mk (StateMeta.mk 0 none) []) none)
            "2025-01-13" "full_video" "vidA" "t1")
          "2025-01-13" "full_video" "vidB" "t2").mem "2025-01-13" "full_video" = true :=
  C7_record_last_write_wins (StateStore.mk (UploadState.mk (StateMeta.mk 0 none) []) none)
    "2025-01-13" "full_video" "vidA" "vidB" "t1" "t2" (by decide)

/-! ## Resumable uploader (src/src/youtube/uploader.py) -/

/-- MAX_RETRIES (line 14). -/
def MAX_RETRIES : Nat := 10

/-- RETRIABLE_STATUS_CODES (line 15). -/
def RETRIABLE_STATUS_CODES : List Nat := [500, 502, 503, 504]

/-- One observable result of a request.next_chunk() call inside the upload
loop: progress with no terminal response yet, a terminal response carrying
the video id, an HttpError with its status and whether str(e) contains the
quotaExceeded signal, or a transport-level exception
(httplib2.HttpLib2Error / IOError). -/
inductive ChunkOutcome where
  | progress
  | success (resp : String)
  | httpErr (status : Nat) (quota_signal : Bool)
  | transportErr
  deriving Repr, DecidableEq

/-- How _resumable_upload terminates: the terminal response, or one of the
raised exceptions QuotaExceededError / UploadFailedError. -/
inductive UploadOutcome where
  | ok (resp : String)
  | quotaExceeded
  | uploadFailed
  deriving Repr, DecidableEq

/-- _resumable_upload (lines 133-172), driven by the trace of next_chunk
outcomes.  `jitter k` is the value of the k-th random.random() draw; the
returned list holds the successive sleep durations
`jitter k * 2 ^ retry` computed at line 167 (with `retry` already
incremented, line 163).  Returns none only when the finite outcome trace
is exhausted with the loop still running. -/
def _resumable_upload (jitter : Nat → ℚ) : Nat → Nat → List ChunkOutcome →
    Option (UploadOutcome × List ℚ)
  | _, _, [] => none
  | retry, sleep_idx, o :: rest =>
    match o with
    | ChunkOutcome.progress => _resumable_upload jitter retry sleep_idx rest
    | ChunkOutcome.success resp => some (UploadOutcome.ok resp, [])
    | ChunkOutcome.httpErr status q =>
      if status = 403 ∧ q = true then some (UploadOutcome.quotaExceeded, [])
      else if status ∈ RETRIABLE_STATUS_CODES then
        if MAX_RETRIES < retry + 1 then some (UploadOutcome.uploadFailed, [])
        else
          match _resumable_upload jitter (retry + 1) (sleep_idx + 1) rest with
          | none => none
          | some (r, sleeps) => some (r, (jitter sleep_idx * 2 ^ (retry + 1)) :: sleeps)
      else some (UploadOutcome.uploadFailed, [])
    | ChunkOutcome.transportErr =>
      if MAX_RETRIES < retry + 1 then some (UploadOutcome.uploadFailed, [])
      else
        match _resumable_upload jitter (retry + 1) (sleep_idx + 1) rest with
        | none => none
        | some (r, sleeps) => some (r, (jitter sleep_idx * 2 ^ (retry + 1)) :: sleeps)

/-- A chunk outcome that enters the retry path: a retriable HTTP status or
a transport-level error. -/
def is_retriable : ChunkOutcome → Bool
  | ChunkOutcome.httpErr status _ => decide (status ∈ RETRIABLE_STATUS_CODES)
  | ChunkOutcome.transportErr => true
  | _ => false

/-- The sleep durations produced by n consecutive retries starting from the
given retry counter and jitter index: the k-th sleep lasts
`jitter (sleep_idx + k) * 2 ^ (retry + 1 + k)` seconds. -/
def backoff_sleeps (jitter : Nat → ℚ) : Nat → Nat → Nat → List ℚ
  | _, _, 0 => []
  | retry, sleep_idx, n + 1 =>
      jitter sleep_idx * 2 ^ (retry + 1) :: backoff_sleeps jitter (retry + 1) (sleep_idx + 1) n

theorem backoff_sleeps_length (jitter : Nat → ℚ) :
    ∀ retry sleep_idx n, (backoff_sleeps jitter retry sleep_idx n).length = n := by
  intro retry sleep_idx n
  induction n generalizing retry sleep_idx with
  | zero => rfl
  | succ m ih => simp [backoff_sleeps, ih]

theorem resumable_retriable_step (jitter : Nat → ℚ) (o : ChunkOutcome)
    (ho : is_retriable o = true) (retry sleep_idx : Nat) (rest : List ChunkOutcome) :
    _resumable_upload jitter retry sleep_idx (o :: rest) =
      if MAX_RETRIES < retry + 1 then some (UploadOutcome.uploadFailed, [])
      else
        match _resumable_upload jitter (retry + 1) (sleep_idx + 1) rest with
        | none => none
        | some (r, sleeps) => some (r, (jitter sleep_idx * 2 ^ (retry + 1)) :: sleeps) := by
  cases o with
  | progress => simp [is_retriable] at ho
  | success resp => simp [is_retriable] at ho
  | transportErr => rfl
  | httpErr status q =>
      simp only [is_retriable, decide_eq_true_eq] at ho
      have h403 : ¬(status = 403 ∧ q = true) := by
        rintro ⟨rfl, -⟩
        simp [RETRIABLE_STATUS_CODES] at ho
      simp [_resumable_upload, h403, ho]

theorem resumable_retries_then_success (jitter : Nat → ℚ) (o : ChunkOutcome)
    (ho : is_retriable o = true) (resp : String) (n : Nat) :
    ∀ retry sleep_idx, retry + n ≤ MAX_RETRIES →
      _resumable_upload jitter retry sleep_idx
          (List.replicate n o ++ [ChunkOutcome.success resp]) =
        some (UploadOutcome.ok resp, backoff_sleeps jitter retry sleep_idx n) := by
  induction n with
  | zero => intro retry sleep_idx _; rfl
  | succ m ih =>
      intro retry sleep_idx h
      rw [List.replicate_succ, List.cons_append,
        resumable_retriable_step jitter o ho]
      rw [if_neg (by simp only [MAX_RETRIES] at h ⊢; omega)]
      rw [ih (retry + 1) (sleep_idx + 1) (by omega)]
      rfl

theorem resumable_retries_exhausted (jitter : Nat → ℚ) (o : ChunkOutcome)
    (ho : is_retriable o = true) (rest : List ChunkOutcome) (m : Nat) :
    ∀ retry sleep_idx, retry + m = MAX_RETRIES →
      _resumable_upload jitter retry sleep_idx (List.replicate (m + 1) o ++ rest) =
        some (UploadOutcome.uploadFailed, backoff_sleeps jitter retry sleep_idx m) := by
  induction m with
  | zero =>
      intro retry sleep_idx h
      rw [List.replicate_succ, List.cons_append, resumable_retriable_step jitter o ho]
      rw [if_pos (by omega)]
      rfl
  | succ p ih =>
      intro retry sleep_idx h
      rw [List.replicate_succ, List.cons_append, resumable_retriable_step jitter o ho]
      rw [if_neg (by omega)]
      rw [ih (retry + 1) (sleep_idx + 1) (by omega)]
      rfl

/-! ## Claims C2, C3 -/

/-- Claim C2 (confirmed): in the resumable upload loop every retriable
failure (HTTP 500/502/503/504 or a transport-level error) increments the
retry counter and sleeps `jitter * 2 ^ retry` seconds before reissuing the
request; n retriable errors followed by success (n at most 10) perform
exactly n sleep/retry cycles and return the successful terminal response,
and a run of MAX_RETRIES + 1 = 11 retriable errors makes the counter
exceed the fixed maximum of 10 and fails permanently with
UploadFailedError after the 10 sleeps. -/
theorem C2_retry_backoff (jitter : Nat → ℚ) (o : ChunkOutcome)
    (ho : is_retriable o = true) (n : Nat) (resp : String) (rest : List ChunkOutcome)
    (hn : n ≤ MAX_RETRIES) :
    _resumable_upload jitter 0 0 (List.replicate n o ++ [ChunkOutcome.success resp]) =
      some (UploadOutcome.ok resp, backoff_sleeps jitter 0 0 n) ∧
    (backoff_sleeps jitter 0 0 n).length = n ∧
    _resumable_upload jitter 0 0 (List.replicate (MAX_RETRIES + 1) o ++ rest) =
      some (UploadOutcome.uploadFailed, backoff_sleeps jitter 0 0 MAX_RETRIES) := by
  refine ⟨?_, backoff_sleeps_length jitter 0 0 n, ?_⟩
  · exact resumable_retries_then_success jitter o ho resp n 0 0 (by omega)
  · exact resumable_retries_exhausted jitter o ho rest MAX_RETRIES 0 0 (by omega)

/-- Witness for C2: 3 retriable 500 errors then success, constant jitter
one half: exactly 3 sleep cycles of 1, 2 and 4 seconds, then the terminal
response. -/
theorem C2_retry_backoff_witness :
    is_retriable (ChunkOutcome.httpErr 500 false) = true ∧
    (3 : Nat) ≤ MAX_RETRIES ∧
    _resumable_upload (fun _ => (1 : ℚ)/2) 0 0
        (List.replicate 3 (ChunkOutcome.httpErr 500 false) ++ [ChunkOutcome.success "vid"]) =
      some (UploadOutcome.ok "vid", backoff_sleeps (fun _ => (1 : ℚ)/2) 0 0 3) ∧
    backoff_sleeps (fun _ => (1 : ℚ)/2) 0 0 3 = [1, 2, 4] :=
  ⟨rfl, by decide,
   (C2_retry_backoff (fun _ => (1 : ℚ)/2) (ChunkOutcome.httpErr 500 false) rfl 3 "vid" []
      (by decide)).1,
   by norm_num [backoff_sleeps]⟩

/-- Claim C3 (confirmed): a chunk request failing with HTTP 403 carrying
the quota signal makes the uploader raise QuotaExceededError immediately:
whatever the current retry counter and whatever outcomes would follow, the
result is quotaExceeded with an empty list of further sleeps — in
particular on the very first attempt there are zero retries and zero
sleeps. -/
theorem C3_quota_error_immediate (jitter : Nat → ℚ) (retry sleep_idx : Nat)
    (rest : List ChunkOutcome) :
    _resumable_upload jitter retry sleep_idx (ChunkOutcome.httpErr 403 true :: rest) =
      some (UploadOutcome.quotaExceeded, []) := by
  simp [_resumable_upload]

/-! ## Batch orchestrator (src/src/batch_process.py, upload_videos and main) -/

/-- The exception classes that upload_video can raise; upload_videos
catches them all with a bare `except Exception` (lines 260, 285), so the
orchestrator code never inspects the kind. -/
inductive ExnKind where
  | quotaExceededErr
  | uploadFailedErr
  | fileNotFound
  | otherErr
  deriving Repr, DecidableEq

/-- The outcome of one upload_video network call: the returned video id,
or a raised exception. -/
inductive CallOutcome where
  | ok (video_id : String)
  | exn (kind : ExnKind)
  deriving Repr, DecidableEq

/-- Which artifact files os.path.exists finds in the date folder
(lines 240 and 265). -/
structure FolderArtifacts where
  has_full_video : Bool
  has_highlights : Bool
  deriving Repr, DecidableEq

/-- The data flowing out of one per-artifact block of upload_videos. -/
structure ArtifactStep where
  result : Option String
  store : StateStore
  uploads_this_run : Nat
  call_idx : Nat
  deriving Repr, DecidableEq

/-- One per-artifact block of upload_videos (lines 240-261 for
full_video, 265-286 for highlights): skip when the file is absent or the
artifact is already recorded; refuse without a network call when
uploads_this_run has reached max_uploads; otherwise make the network call
(consuming oracle call_idx): on success record the upload, bump the daily
counter and the per-run counter; on any exception print and continue with
nothing changed. -/
def upload_artifact (file_on_disk : Bool) (date video_type : String) (st : StateStore)
    (uploads_this_run max_uploads : Nat) (oracle : Nat → CallOutcome) (call_idx : Nat)
    (today now : String) : ArtifactStep :=
  if file_on_disk then
    if is_video_uploaded st.mem date video_type then
      ArtifactStep.mk none st uploads_this_run call_idx
    else if max_uploads ≤ uploads_this_run then
      ArtifactStep.mk none st uploads_this_run call_idx
    else
      match oracle call_idx with
      | CallOutcome.ok vid =>
          ArtifactStep.mk (some vid)
            (increment_upload_count (record_upload st date video_type vid now) today)
            (uploads_this_run + 1) (call_idx + 1)
      | CallOutcome.exn _ =>
          ArtifactStep.mk none st uploads_this_run (call_idx + 1)
  else ArtifactStep.mk none st uploads_this_run call_idx

/-- The data returned by upload_videos, plus the store and the network
call index threaded through. -/
structure UploadRun where
  full_video : Option String
  highlights : Option String
  store : StateStore
  uploads_this_run : Nat
  call_idx : Nat
  deriving Repr, DecidableEq

/-- upload_videos (lines 212-288): early return when the per-run ceiling
is already reached (lines 229-232; the daily-threshold warning at
lines 234-236 prints only and changes nothing), then the full_video block
followed by the highlights block. -/
def upload_videos (date : String) (st : StateStore) (uploads_this_run max_uploads : Nat)
    (files : FolderArtifacts) (oracle : Nat → CallOutcome) (call_idx : Nat)
    (today now : String) : UploadRun :=
  if max_uploads ≤ uploads_this_run then
    UploadRun.mk none none st uploads_this_run call_idx
  else
    let s1 := upload_artifact files.has_full_video date "full_video" st uploads_this_run
      max_uploads oracle call_idx today now
    let s2 := upload_artifact files.has_highlights date "highlights" s1.store
      s1.uploads_this_run max_uploads oracle s1.call_idx today now
    UploadRun.mk s1.result s2.result s2.store s2.uploads_this_run s2.call_idx

/-- What a whole run leaves behind. -/
structure RunOutcome where
  store : StateStore
  uploads_this_run : Nat
  call_idx : Nat
  deriving Repr, DecidableEq

/-- The upload part of the main date loop (lines 404-419): call
upload_videos for each date in order and break out of the loop as soon as
uploads_this_run has reached max_uploads. -/
def process_dates (dates : List String) (st : StateStore)
    (uploads_this_run max_uploads : Nat) (ffun : String → FolderArtifacts)
    (oracle : Nat → CallOutcome) (call_idx : Nat) (today now : String) : RunOutcome :=
  match dates with
  | [] => RunOutcome.mk st uploads_this_run call_idx
  | d :: rest =>
    let o := upload_videos d st uploads_this_run max_uploads (ffun d) oracle call_idx today now
    if max_uploads ≤ o.uploads_this_run then
      RunOutcome.mk o.store o.uploads_this_run o.call_idx
    else
      process_dates rest o.store o.uploads_this_run max_uploads ffun oracle o.call_idx today now

/-! ## Invariants of the per-run quota guard -/

theorem upload_artifact_le {fd : Bool} {date kind : String} {st : StateStore}
    {utr m : Nat} {oracle : Nat → CallOutcome} {idx : Nat} {today now : String}
    (h : utr ≤ m) :
    (upload_artifact fd date kind st utr m oracle idx today now).uploads_this_run ≤ m := by
  unfold upload_artifact
  split
  · split
    · exact h
    · split
      · exact h
      · split
        · show utr + 1 ≤ m
          omega
        · exact h
  · exact h

theorem upload_videos_le {date : String} {st : StateStore} {utr m : Nat}
    {files : FolderArtifacts} {oracle : Nat → CallOutcome} {idx : Nat}
    {today now : String} (h : utr ≤ m) :
    (upload_videos date st utr m files oracle idx today now).uploads_this_run ≤ m := by
  unfold upload_videos
  split
  · exact h
  · exact upload_artifact_le (upload_artifact_le h)

theorem process_dates_le {dates : List String} {st : StateStore} {utr m : Nat}
    {ffun : String → FolderArtifacts} {oracle : Nat → CallOutcome} {idx : Nat}
    {today now : String} (h : utr ≤ m) :
    (process_dates dates st utr m ffun oracle idx today now).uploads_this_run ≤ m := by
  induction dates generalizing st utr idx with
  | nil => exact h
  | cons d rest ih =>
      unfold process_dates
      by_cases h2 : m ≤ (upload_videos d st utr m (ffun d) oracle idx today now).uploads_this_run
      · simp only [h2, if_true]
        exact upload_videos_le h
      · simp only [h2, if_false]
        exact ih (upload_videos_le h)

/-! ## Concrete run scenarios -/

/-- A fresh store: no state file on disk yet. -/
def fresh_store : StateStore :=
  StateStore.mk (UploadState.mk (StateMeta.mk 0 none) []) none

/-- Remote behavior for the C1 counterexample: the first call raises, every
later call succeeds. -/
def cex_oracle : Nat → CallOutcome := fun i =>
  if i = 0 then CallOutcome.exn ExnKind.uploadFailedErr else CallOutcome.ok "vid2"

/-- Remote behavior where every call succeeds. -/
def ok_oracle : Nat → CallOutcome := fun _ => CallOutcome.ok "vid"

/-- Folders for the C1 scenario: the first date has both artifacts, the
second only the full video — three candidate artifacts in total. -/
def c1_files : String → FolderArtifacts := fun d =>
  if d = "2025-01-13" then FolderArtifacts.mk true true else FolderArtifacts.mk true false

/-! ## Claims C1, C4, C10 -/

/-- Counterexample to claim C1 as stated: with max_uploads = 1 and two
candidate artifacts, the first upload call failing, the run performs 2
upload network calls — more than max_uploads — because a failed call does
not advance uploads_this_run. -/
theorem C1_quota_counterexample :
    (upload_videos "2025-01-13" fresh_store 0 1 (FolderArtifacts.mk true true)
        cex_oracle 0 "2025-02-03" "now1").call_idx = 2 ∧
    ¬((2 : Nat) ≤ 1) := by
  exact ⟨rfl, by decide⟩

/-- Claim C1 as amended (corrected): the per-run ceiling bounds the number
of successful upload calls, not of all network calls.  Once
uploads_this_run has reached max_uploads, upload_videos refuses every
candidate without any network call and without touching the state
(call_idx and the store are returned unchanged); across a whole run the
per-run counter never exceeds max_uploads; and in the concrete scenario
with max_uploads = 2, three candidate artifacts and every call
succeeding, exactly 2 network calls occur, both are recorded, and the
third artifact is left unrecorded. -/
theorem C1_quota_cap_amended (date : String) (st : StateStore) (utr m idx : Nat)
    (files : FolderArtifacts) (oracle : Nat → CallOutcome) (today now : String)
    (dates : List String) (ffun : String → FolderArtifacts) :
    (m ≤ utr →
      upload_videos date st utr m files oracle idx today now =
        UploadRun.mk none none st utr idx) ∧
    (utr ≤ m →
      (process_dates dates st utr m ffun oracle idx today now).uploads_this_run ≤ m) ∧
    ((process_dates ["2025-01-13", "2025-01-20"] fresh_store 0 2 c1_files ok_oracle 0
        "2025-02-03" "now1").call_idx = 2 ∧
     (process_dates ["2025-01-13", "2025-01-20"] fresh_store 0 2 c1_files ok_oracle 0
        "2025-02-03" "now1").uploads_this_run = 2 ∧
     is_video_uploaded (process_dates ["2025-01-13", "2025-01-20"] fresh_store 0 2 c1_files
        ok_oracle 0 "2025-02-03" "now1").store.mem "2025-01-13" "full_video" = true ∧
     is_video_uploaded (process_dates ["2025-01-13", "2025-01-20"] fresh_store 0 2 c1_files
        ok_oracle 0 "2025-02-03" "now1").store.mem "2025-01-13" "highlights" = true ∧
     is_video_uploaded (process_dates ["2025-01-13", "2025-01-20"] fresh_store 0 2 c1_files
        ok_oracle 0 "2025-02-03" "now1").store.mem "2025-01-20" "full_video" = false) := by
  refine ⟨fun h => ?_, fun h => process_dates_le h, by decide⟩
  unfold upload_videos
  rw [if_pos h]

/-- Witness for the amended C1: at the ceiling, upload_videos is a no-op
making no network call. -/
theorem C1_quota_cap_amended_witness :
    upload_videos "2025-02-10" fresh_store 2 2 (FolderArtifacts.mk true true) ok_oracle 0
        "2025-02-10" "now2" =
      UploadRun.mk none none fresh_store 2 0 :=
  (C1_quota_cap_amended "2025-02-10" fresh_store 2 2 0 (FolderArtifacts.mk true true)
    ok_oracle "2025-02-10" "now2" [] c1_files).1 (by decide)

/-- Remote behavior for the C4 counterexample and witness: the first call
raises QuotaExceededError, every later call succeeds. -/
def quota_oracle : Nat → CallOutcome := fun i =>
  if i = 0 then CallOutcome.exn ExnKind.quotaExceededErr else CallOutcome.ok "vid"

/-- Folders where each date holds only the full video artifact. -/
def fullonly_files : String → FolderArtifacts := fun _ => FolderArtifacts.mk true false

/-- Counterexample to claim C4 as stated: the first upload call (kind
full_video) raises QuotaExceededError, yet the run makes a second network
call for the same kind on the next date and records it — the orchestrator
does not stop uploads of that kind for the remainder of the run. -/
theorem C4_quota_counterexample :
    quota_oracle 0 = CallOutcome.exn ExnKind.quotaExceededErr ∧
    (process_dates ["2025-01-13", "2025-01-20"] fresh_store 0 4 fullonly_files
        quota_oracle 0 "2025-02-03" "now1").call_idx = 2 ∧
    is_video_uploaded (process_dates ["2025-01-13", "2025-01-20"] fresh_store 0 4
        fullonly_files quota_oracle 0 "2025-02-03" "now1").store.mem
      "2025-01-20" "full_video" = true := by
  decide

/-- Claim C4 as amended (corrected): when the upload call raises
QuotaExceededError, upload_videos catches it like any exception: that
artifact is left unrecorded, the per-run counter unchanged and the failed
upload is not retried within the run; but the orchestrator then continues
the run, making further upload attempts (including of the same kind) on
later dates. -/
theorem C4_quota_caught_amended (date : String) (st : StateStore) (utr m idx : Nat)
    (oracle : Nat → CallOutcome) (today now : String)
    (hq : oracle idx = CallOutcome.exn ExnKind.quotaExceededErr)
    (hu : is_video_uploaded st.mem date "full_video" = false)
    (hlt : utr < m) :
    upload_artifact true date "full_video" st utr m oracle idx today now =
      ArtifactStep.mk none st utr (idx + 1) ∧
    (∀ rest ffun, ffun date = FolderArtifacts.mk true false →
      process_dates (date :: rest) st utr m ffun oracle idx today now =
        process_dates rest st utr m ffun oracle (idx + 1) today now) := by
  have hstep : upload_artifact true date "full_video" st utr m oracle idx today now =
      ArtifactStep.mk none st utr (idx + 1) := by
    unfold upload_artifact
    rw [if_pos rfl, if_neg (by simp [hu]), if_neg (by omega), hq]
  refine ⟨hstep, fun rest ffun hf => ?_⟩
  show (let o := upload_videos date st utr m (ffun date) oracle idx today now
        if m ≤ o.uploads_this_run then RunOutcome.mk o.store o.uploads_this_run o.call_idx
        else process_dates rest o.store o.uploads_this_run m ffun oracle o.call_idx today now) =
      process_dates rest st utr m ffun oracle (idx + 1) today now
  have hv : upload_videos date st utr m (ffun date) oracle idx today now =
      UploadRun.mk none none st utr (idx + 1) := by
    rw [hf]
    unfold upload_videos
    rw [if_neg (by omega)]
    simp only [hstep]
    rfl
  rw [hv]
  simp only
  rw [if_neg (by omega)]

/-- Witness for the amended C4 at concrete inputs. -/
theorem C4_quota_caught_amended_witness :
    upload_artifact true "2025-03-01" "full_video" fresh_store 0 4 quota_oracle 0
        "2025-03-01" "now3" =
      ArtifactStep.mk none fresh_store 0 1 :=
  (C4_quota_caught_amended "2025-03-01" fresh_store 0 4 0 quota_oracle "2025-03-01" "now3"
    rfl rfl (by decide)).1

/-- Remote behavior for the C10 witness: every call raises a generic
exception. -/
def exn_oracle : Nat → CallOutcome := fun _ => CallOutcome.exn ExnKind.otherErr

/-- Claim C10 (confirmed): if the upload call for an artifact raises any
exception, the upload step leaves the persistent state store entirely
unchanged — nothing recorded, the daily counter untouched — and
uploads_this_run is not incremented; the exception is not propagated: when
the full_video call of a date fails this way, upload_videos still goes on
to attempt the highlights artifact with the same store and counter and the
next oracle index. -/
theorem C10_upload_exception_isolated (date video_type : String) (st : StateStore)
    (utr m idx : Nat) (oracle : Nat → CallOutcome) (k : ExnKind) (today now : String)
    (hq : oracle idx = CallOutcome.exn k)
    (hv : is_video_uploaded st.mem date video_type = false)
    (hfu : is_video_uploaded st.mem date "full_video" = false)
    (hlt : utr < m) :
    upload_artifact true date video_type st utr m oracle idx today now =
      ArtifactStep.mk none st utr (idx + 1) ∧
    upload_videos date st utr m (FolderArtifacts.mk true true) oracle idx today now =
      UploadRun.mk none
        (upload_artifact true date "highlights" st utr m oracle (idx + 1) today now).result
        (upload_artifact true date "highlights" st utr m oracle (idx + 1) today now).store
        (upload_artifact true date "highlights" st utr m oracle (idx + 1) today now).uploads_this_run
        (upload_artifact true date "highlights" st utr m oracle (idx + 1) today now).call_idx := by
  have hstep : ∀ vt, is_video_uploaded st.mem date vt = false →
      upload_artifact true date vt st utr m oracle idx today now =
        ArtifactStep.mk none st utr (idx + 1) := by
    intro vt hvt
    unfold upload_artifact
    rw [if_pos rfl, if_neg (by simp [hvt]), if_neg (by omega), hq]
  refine ⟨hstep video_type hv, ?_⟩
  unfold upload_videos
  rw [if_neg (by omega)]
  simp only [hstep "full_video" hfu]

/-- Witness for C10: a generic exception on the full_video call of a fresh
store changes nothing and advances only the oracle index. -/
theorem C10_upload_exception_isolated_witness :
    upload_artifact true "2025-04-01" "full_video" fresh_store 0 4 exn_oracle 0
        "2025-04-01" "now4" =
      ArtifactStep.mk none fresh_store 0 1 :=
  (C10_upload_exception_isolated "2025-04-01" "full_video" fresh_store 0 4 0 exn_oracle
    ExnKind.otherErr "2025-04-01" "now4" rfl rfl rfl (by decide)).1

/-! ## Highlight subclip computation (src/src/main.py, lines 120-132, and
the before/after window of src/config.py, lines 15-17) -/

/-- The body of the timestamp loop for one CSV timestamp t: skip when t
exceeds the full clip duration (lines 122-126), else the subclip bounds
`start = max(t - before_goal_seconds, 0)` and
`end = min(t + after_goal_seconds, duration)` (lines 128-129). -/
def highlight_bounds (before_goal_seconds after_goal_seconds duration t : ℚ) :
    Option (ℚ × ℚ) :=
  if t > duration then none
  else some (max (t - before_goal_seconds) 0, min (t + after_goal_seconds) duration)

/-- The whole timestamp loop: one subclip per non-skipped timestamp, in
order (final_clips of lines 116-132). -/
def highlight_clips (before_goal_seconds after_goal_seconds duration : ℚ)
    (ts : List ℚ) : List (ℚ × ℚ) :=
  match ts with
  | [] => []
  | t :: rest =>
    match highlight_bounds before_goal_seconds after_goal_seconds duration t with
    | none => highlight_clips before_goal_seconds after_goal_seconds duration rest
    | some b => b :: highlight_clips before_goal_seconds after_goal_seconds duration rest

/-! ## Claims C8, C9 -/

/-- Claim C8 (confirmed): a CSV timestamp t not exceeding the duration
yields a subclip with bounds max(t - before, 0) and min(t + after,
duration), and for nonnegative window and timestamp both bounds lie in
the interval from 0 to the duration. -/
theorem C8_highlight_bounds_spec (b a dur t : ℚ) (hb : 0 ≤ b) (ha : 0 ≤ a)
    (ht0 : 0 ≤ t) (ht : t ≤ dur) :
    highlight_bounds b a dur t = some (max (t - b) 0, min (t + a) dur) ∧
    0 ≤ max (t - b) 0 ∧ max (t - b) 0 ≤ dur ∧
    0 ≤ min (t + a) dur ∧ min (t + a) dur ≤ dur := by
  have hdur : (0 : ℚ) ≤ dur := le_trans ht0 ht
  refine ⟨?_, le_max_right _ _, ?_, ?_, min_le_right _ _⟩
  · simp [highlight_bounds, not_lt.mpr ht]
  · exact max_le (by linarith) hdur
  · exact le_min (by linarith) hdur

/-- Witness for C8, the scenario of the spec: t = 3661.5 (written 7323/2)
with window 8 before and 4 after, duration 4000 which is at least 3665.5:
the bounds are 3653.5 and 3665.5, written 7307/2 and 7331/2. -/
theorem C8_highlight_bounds_spec_witness :
    highlight_bounds 8 4 4000 (7323/2) = some (max ((7323 : ℚ)/2 - 8) 0, min ((7323 : ℚ)/2 + 4) 4000) ∧
    max ((7323 : ℚ)/2 - 8) 0 = 7307/2 ∧
    min ((7323 : ℚ)/2 + 4) 4000 = 7331/2 :=
  ⟨(C8_highlight_bounds_spec 8 4 4000 (7323/2) (by norm_num) (by norm_num) (by norm_num)
      (by norm_num)).1,
   by rw [max_eq_left (by norm_num)]; norm_num,
   by rw [min_eq_left (by norm_num)]; norm_num⟩

/-- Claim C9 (confirmed): a timestamp strictly greater than the duration
produces no subclip at all — it is skipped, not clamped — so the number of
subclips equals the number of timestamps not exceeding the duration. -/
theorem C9_skip_beyond_duration (b a dur : ℚ) (ts : List ℚ) :
    (∀ t, dur < t → highlight_bounds b a dur t = none) ∧
    (highlight_clips b a dur ts).length =
      (ts.filter (fun t => decide (t ≤ dur))).length := by
  constructor
  · intro t h
    simp [highlight_bounds, h]
  · induction ts with
    | nil => rfl
    | cons t rest ih =>
        by_cases h : t ≤ dur
        · simp only [highlight_clips, highlight_bounds, if_neg (not_lt.mpr h),
            List.filter_cons, decide_eq_true_eq, h, if_true, List.length_cons, ih]
        · simp only [highlight_clips, highlight_bounds, if_pos (not_le.mp h),
            List.filter_cons, decide_eq_true_eq, h, if_false, ih]

/-- Witness for C9: timestamps 50, 150 and 99 against duration 100 give two
subclips, and 150 is skipped. -/
theorem C9_skip_beyond_duration_witness :
    (highlight_clips 8 4 100 [50, 150, 99]).length =
      (([50, 150, 99] : List ℚ).filter (fun t => decide (t ≤ 100))).length ∧
    highlight_bounds 8 4 100 150 = none ∧
    (highlight_clips 8 4 100 [50, 150, 99]).length = 2 :=
  ⟨(C9_skip_beyond_duration 8 4 100 [50, 150, 99]).2,
   (C9_skip_beyond_duration 8 4 100 [50, 150, 99]).1 150 (by norm_num),
   by decide⟩

end IndoorVid
